import Mathlib

/-!
Verification of the graph-indexer worker (`src/index.js`): a shallow embedding
of its outbox claim protocol, event transformers, retry/failure state machine,
worker loop dispatch, configuration reading, fingerprint helper and shutdown
handlers, together with theorems settling the specification claims.
-/

set_option maxRecDepth 100000

namespace GraphIndexer

/-! ## Fingerprint helper: SHA-256 (crypto.createHash("sha256")...digest("hex")) -/

/-- 2^32, the word modulus for SHA-256 arithmetic. -/
def M32 : Nat := 4294967296

/-- Rotate a word right by n bits within 32 bits. -/
def rotr (n x : Nat) : Nat := ((x >>> n) ||| (x <<< (32 - n))) % M32

def bigSigma0 (x : Nat) : Nat := (rotr 2 x ^^^ rotr 13 x) ^^^ rotr 22 x

def bigSigma1 (x : Nat) : Nat := (rotr 6 x ^^^ rotr 11 x) ^^^ rotr 25 x

def smallSigma0 (x : Nat) : Nat := (rotr 7 x ^^^ rotr 18 x) ^^^ (x >>> 3)

def smallSigma1 (x : Nat) : Nat := (rotr 17 x ^^^ rotr 19 x) ^^^ (x >>> 10)

def chFn (x y z : Nat) : Nat := (x &&& y) ^^^ ((x ^^^ (M32 - 1)) &&& z)

def majFn (x y z : Nat) : Nat := ((x &&& y) ^^^ (x &&& z)) ^^^ (y &&& z)

/-- The SHA-256 round constant table (64 words, FIPS 180-4, in decimal). -/
def roundK : Array Nat := #[
  1116352408, 1899447441, 3049323471, 3921009573, 961987163,
  1508970993, 2453635748, 2870763221, 3624381080, 310598401,
  607225278, 1426881987, 1925078388, 2162078206, 2614888103,
  3248222580, 3835390401, 4022224774, 264347078, 604807628,
  770255983, 1249150122, 1555081692, 1996064986, 2554220882,
  2821834349, 2952996808, 3210313671, 3336571891, 3584528711,
  113926993, 338241895, 666307205, 773529912, 1294757372,
  1396182291, 1695183700, 1986661051, 2177026350, 2456956037,
  2730485921, 2820302411, 3259730800, 3345764771, 3516065817,
  3600352804, 4094571909, 275423344, 430227734, 506948616,
  659060556, 883997877, 958139571, 1322822218, 1537002063,
  1747873779, 1955562222, 2024104815, 2227730452, 2361852424,
  2428436474, 2756734187, 3204031479, 3329325298]

/-- Working state of the SHA-256 compression function: eight 32-bit words. -/
structure Hash8 where
  a : Nat
  b : Nat
  c : Nat
  d : Nat
  e : Nat
  f : Nat
  g : Nat
  h : Nat
deriving Repr, DecidableEq

/-- SHA-256 initial hash value. -/
def sha256Init : Hash8 :=
  ⟨1779033703, 3144134277, 1013904242, 2773480762, 1359893119, 2600822924, 528734635, 1541459225⟩

/-- One round of the SHA-256 compression function. -/
def sha256Round (w k : Nat) (s : Hash8) : Hash8 :=
  let t1 := (s.h + bigSigma1 s.e + chFn s.e s.f s.g + k + w) % M32
  let t2 := (bigSigma0 s.a + majFn s.a s.b s.c) % M32
  ⟨(t1 + t2) % M32, s.a, s.b, s.c, (s.d + t1) % M32, s.e, s.f, s.g⟩

/-- Big-endian 32-bit words from the 64 bytes of a block. -/
def blockWords (block : List Nat) : Array Nat :=
  (List.range 16).foldl (fun w i =>
    w.push ((((block.getD (4*i) 0 <<< 24) ||| (block.getD (4*i+1) 0 <<< 16)) |||
             ((block.getD (4*i+2) 0 <<< 8) ||| block.getD (4*i+3) 0)) % M32)) #[]

/-- The 64-entry SHA-256 message schedule for one block. -/
def msgSchedule (block : List Nat) : Array Nat :=
  (List.range' 16 48).foldl (fun w i =>
    w.push ((smallSigma1 (w.getD (i-2) 0) + w.getD (i-7) 0 +
             smallSigma0 (w.getD (i-15) 0) + w.getD (i-16) 0) % M32)) (blockWords block)

/-- Process one 64-byte block: 64 rounds then feed-forward addition mod 2^32. -/
def sha256Block (st : Hash8) (block : List Nat) : Hash8 :=
  let w := msgSchedule block
  let s := (List.range 64).foldl (fun s i => sha256Round (w.getD i 0) (roundK.getD i 0) s) st
  ⟨(st.a + s.a) % M32, (st.b + s.b) % M32, (st.c + s.c) % M32, (st.d + s.d) % M32,
   (st.e + s.e) % M32, (st.f + s.f) % M32, (st.g + s.g) % M32, (st.h + s.h) % M32⟩

/-- SHA-256 padding: append 0x80, zero bytes until the length reaches 56 mod 64,
then the message bit length as 8 big-endian bytes. -/
def sha256Pad (msg : List Nat) : List Nat :=
  let len := msg.length
  let zeros := (64 + 56 - (len + 1) % 64) % 64
  let bitLen := len * 8
  msg ++ [0x80] ++ List.replicate zeros 0 ++
    (List.range 8).map (fun i => bitLen >>> (8 * (7 - i)) % 256)

/-- Split a padded message into 64-byte blocks (with a fuel argument so the
recursion is structural; the fuel is the list length, which always suffices
since every step consumes at least one element). -/
def toBlocksFuel : Nat → List Nat → List (List Nat)
  | _, [] => []
  | 0, _ => []
  | fuel+1, x :: xs =>
    ((x :: xs).take 64) :: toBlocksFuel fuel ((x :: xs).drop 64)

def toBlocks (l : List Nat) : List (List Nat) := toBlocksFuel l.length l

/-- Hash a byte sequence to the final eight-word state. -/
def sha256Words (msg : List Nat) : Hash8 :=
  (toBlocks (sha256Pad msg)).foldl sha256Block sha256Init

/-- Lowercase hexadecimal digit for a value below 16. -/
def hexDigit (n : Nat) : Char := if n < 10 then Char.ofNat (48 + n) else Char.ofNat (87 + n)

/-- Lowercase hex rendering of one 32-bit word, always 8 characters. -/
def word8Hex (n : Nat) : List Char :=
  (List.range 8).map (fun k => hexDigit (n / 16 ^ (7 - k) % 16))

def Hash8.words (s : Hash8) : List Nat := [s.a, s.b, s.c, s.d, s.e, s.f, s.g, s.h]

/-- Hex digest of a final hash state: 64 lowercase hex characters. -/
def digestHex (s : Hash8) : String := String.mk (s.words.map word8Hex).flatten

/-- The UTF-8 encoding of one character. -/
def utf8Bytes (c : Char) : List Nat :=
  let n := c.toNat
  if n < 0x80 then [n]
  else if n < 0x800 then [0xC0 ||| (n >>> 6), 0x80 ||| (n &&& 0x3F)]
  else if n < 0x10000 then
    [0xE0 ||| (n >>> 12), 0x80 ||| ((n >>> 6) &&& 0x3F), 0x80 ||| (n &&& 0x3F)]
  else
    [0xF0 ||| (n >>> 18), 0x80 ||| ((n >>> 12) &&& 0x3F),
     0x80 ||| ((n >>> 6) &&& 0x3F), 0x80 ||| (n &&& 0x3F)]

/-- The UTF-8 bytes of a string. -/
def strBytes (s : String) : List Nat := (s.data.map utf8Bytes).flatten

/-- Embedding of the source helper `sha256(str)`: SHA-256 over the UTF-8 bytes
of the input, rendered as a lowercase hex digest. -/
def sha256 (s : String) : String :=
  digestHex (sha256Words (strBytes s))

/-- The sixteen lowercase hexadecimal characters. -/
def hexChars : List Char := "0123456789abcdef".data

/-! ## JavaScript-style falsiness helpers

Payload fields of an outbox event are JSON values that may be absent
(`undefined`) or present. `x || d` in the source evaluates to `d` when `x`
is absent, the empty string, or `false`. -/

/-- JS truthiness of an optional string field: present and nonempty. -/
def truthyStr : Option String → Bool
  | none => false
  | some s => !(s == "")

/-- JS `x || d` for an optional string field. -/
def jsOrStr : Option String → String → String
  | none, d => d
  | some s, d => if s == "" then d else s

/-- JS `x || d` for an optional boolean field. -/
def jsOrBool : Option Bool → Bool → Bool
  | none, d => d
  | some b, d => if b then b else d

/-- The string value of an optional field, empty when absent. -/
def strOf (o : Option String) : String := o.getD ""

/-! ## Property-graph model (the Neo4j target of the Cypher MERGE statements) -/

/-- A property value: a string (names, urls, timestamps) or a boolean flag. -/
inductive PropVal where
  | str (s : String)
  | bool (b : Bool)
deriving Repr, DecidableEq

/-- A property map, as an association list. -/
abbrev Props := List (String × PropVal)

/-- Set one property: overwrite in place when the key exists, append otherwise. -/
def setProp (ps : Props) (k : String) (v : PropVal) : Props :=
  if ps.any (fun kv => kv.1 == k) then
    ps.map (fun kv => if kv.1 == k then (k, v) else kv)
  else ps ++ [(k, v)]

/-- Apply a list of property assignments (a Cypher SET clause) left to right. -/
def setProps (ps : Props) (us : Props) : Props :=
  us.foldl (fun acc kv => setProp acc kv.1 kv.2) ps

/-- A graph node: label, the `id` property used as merge key, other properties. -/
structure GNode where
  label : String
  nid : String
  props : Props
deriving Repr, DecidableEq

/-- A relationship: endpoints by (label, id), a type, identity-bearing key
properties (part of the MERGE pattern) and other properties. -/
structure GRel where
  srcLabel : String
  srcId : String
  rtype : String
  keyProps : Props
  dstLabel : String
  dstId : String
  props : Props
deriving Repr, DecidableEq

/-- The property graph state. -/
structure Graph where
  nodes : List GNode
  rels : List GRel
deriving Repr, DecidableEq

def emptyGraph : Graph := ⟨[], []⟩

/-- Does a node match a MERGE pattern `(n:label {id: nid})`? -/
def nodeMatches (label nid : String) (n : GNode) : Bool :=
  n.label == label && n.nid == nid

/-- Does a relationship match a MERGE pattern between two matched nodes? -/
def relMatches (sl si rt : String) (kp : Props) (dl di : String) (r : GRel) : Bool :=
  r.srcLabel == sl && (r.srcId == si && (r.rtype == rt &&
    (r.keyProps == kp && (r.dstLabel == dl && r.dstId == di))))

/-- Cypher `MERGE (n:label {id}) ON CREATE SET ... ON MATCH SET ...` on nodes. -/
def mergeNode (g : Graph) (label nid : String) (onCreate onMatch : Props) : Graph :=
  if g.nodes.any (nodeMatches label nid) then
    { g with nodes := g.nodes.map (fun n =>
        if nodeMatches label nid n then { n with props := setProps n.props onMatch } else n) }
  else
    { g with nodes := g.nodes ++ [⟨label, nid, setProps [] onCreate⟩] }

/-- Cypher `MERGE (s)-[r:TYPE {key}]->(o) ON CREATE SET ... ON MATCH SET ...`. -/
def mergeRel (g : Graph) (sl si rt : String) (kp : Props) (dl di : String)
    (onCreate onMatch : Props) : Graph :=
  if g.rels.any (relMatches sl si rt kp dl di) then
    { g with rels := g.rels.map (fun r =>
        if relMatches sl si rt kp dl di r then { r with props := setProps r.props onMatch } else r) }
  else
    { g with rels := g.rels ++ [⟨sl, si, rt, kp, dl, di, setProps [] onCreate⟩] }

/-! ## Outbox records and payloads -/

/-- An untyped JSONB payload, as the fields the transformers destructure. -/
structure Payload where
  subject : Option String := none
  predicate : Option String := none
  object : Option String := none
  evidence_crouton_id : Option String := none
  created_at : Option String := none
  crouton_id : Option String := none
  source_url : Option String := none
  text : Option String := none
  source_domain : Option String := none
  ai_readable_source : Option Bool := none
  markdown_discovered : Option Bool := none
  discovery_method : Option String := none
  first_observed : Option String := none
  last_verified : Option String := none
deriving Repr, DecidableEq

/-- Outbox record status, per the outbox_graph_events schema. -/
inductive Status where
  | pending
  | processing
  | done
  | failed
deriving Repr, DecidableEq

/-- A row of `outbox_graph_events`. -/
structure OutboxRecord where
  rid : Nat
  event_type : String
  payload : Payload
  occurred_at : Nat
  attempts : Nat
  status : Status
  error : Option String
deriving Repr, DecidableEq

/-! ## Event transformers (processTriple, processFactlet, processSourceParticipation)

Each takes the wall-clock time `t` (the value `new Date().toISOString()` would
produce), the event payload and the graph, and either fails with the thrown
error message before any graph write, or returns the written graph. -/

/-- Validation test of processTriple: `!subject || !predicate || !object` fails. -/
def validTriple (p : Payload) : Bool :=
  truthyStr p.subject && (truthyStr p.predicate && truthyStr p.object)

/-- Embedding of `processTriple` (Pattern A: Entities + ASSERTS edge). -/
def processTriple (t : String) (p : Payload) (g : Graph) : Except String Graph :=
  let subject := strOf p.subject
  let predicate := strOf p.predicate
  let object := strOf p.object
  if !validTriple p then .error "Missing required triple fields"
  else
    let sid := sha256 subject
    let oid := sha256 object
    let now := jsOrStr p.created_at t
    let g1 := mergeNode g "Entity" sid
      [("name", .str subject), ("created_at", .str now)] []
    let g2 := mergeNode g1 "Entity" oid
      [("name", .str object), ("created_at", .str now)] []
    let g3 := mergeRel g2 "Entity" sid "ASSERTS" [("predicate", .str predicate)] "Entity" oid
      [("created_at", .str now)] [("updated_at", .str now)]
    .ok g3

/-- Validation test of processFactlet: `!crouton_id || !source_url` fails. -/
def validFactlet (p : Payload) : Bool :=
  truthyStr p.crouton_id && truthyStr p.source_url

/-- Embedding of `processFactlet`. -/
def processFactlet (t : String) (p : Payload) (g : Graph) : Except String Graph :=
  let crouton_id := strOf p.crouton_id
  let source_url := strOf p.source_url
  if !validFactlet p then .error "Missing required factlet fields"
  else
    let factletId := sha256 crouton_id
    let pageId := sha256 source_url
    let now := jsOrStr p.created_at t
    let g1 := mergeNode g "Factlet" factletId
      [("fact_id", .str crouton_id), ("claim", .str (jsOrStr p.text "")), ("created_at", .str now)] []
    let g2 := mergeNode g1 "WebPage" pageId
      [("url", .str source_url), ("created_at", .str now)] []
    let g3 := mergeRel g2 "Factlet" factletId "FROM_PAGE" [] "WebPage" pageId [] []
    .ok g3

/-- Validation test of processSourceParticipation:
`!crouton_id || !source_domain || !source_url` fails. -/
def validPart (p : Payload) : Bool :=
  truthyStr p.crouton_id && (truthyStr p.source_domain && truthyStr p.source_url)

/-- The base timestamp of a source_participation event:
`now = first_observed || new Date().toISOString()`. -/
def spBaseTime (t : String) (p : Payload) : String := jsOrStr p.first_observed t

/-- The ON CREATE property assignments of the SourceParticipation node, with the
`||`-defaults the source applies to each optional field. -/
def spOnCreate (t : String) (p : Payload) : Props :=
  let now := spBaseTime t p
  [("ai_readable_source", .bool (jsOrBool p.ai_readable_source false)),
   ("markdown_discovered", .bool (jsOrBool p.markdown_discovered false)),
   ("discovery_method", .str (jsOrStr p.discovery_method "unknown")),
   ("first_observed", .str (jsOrStr p.first_observed now)),
   ("last_verified", .str (jsOrStr p.last_verified now)),
   ("created_at", .str now)]

/-- The ON MATCH property assignments of the SourceParticipation node. -/
def spOnMatch (t : String) (p : Payload) : Props :=
  let now := spBaseTime t p
  [("last_verified", .str (jsOrStr p.last_verified now)),
   ("updated_at", .str now)]

/-- Embedding of `processSourceParticipation` (Pattern B: source tracking). -/
def processSourceParticipation (t : String) (p : Payload) (g : Graph) : Except String Graph :=
  let crouton_id := strOf p.crouton_id
  let source_domain := strOf p.source_domain
  let source_url := strOf p.source_url
  if !validPart p then .error "Missing required source participation fields"
  else
    let participationId := sha256 (crouton_id ++ ":" ++ source_url)
    let domainId := sha256 source_domain
    let now := spBaseTime t p
    let g1 := mergeNode g "SourceDomain" domainId
      [("name", .str source_domain), ("created_at", .str now)] []
    let g2 := mergeNode g1 "Crouton" crouton_id
      [("created_at", .str now)] []
    let g3 := mergeNode g2 "SourceParticipation" participationId
      (spOnCreate t p) (spOnMatch t p)
    let g4 := mergeRel g3 "SourceDomain" domainId "HAS_PARTICIPATION" []
      "SourceParticipation" participationId [] []
    let g5 := mergeRel g4 "SourceParticipation" participationId "TRACKS_CROUTON" []
      "Crouton" crouton_id [] []
    .ok g5

/-! ## Outbox claim protocol (claimBatch) -/

/-- `ORDER BY occurred_at ASC`. -/
def occLe (x y : OutboxRecord) : Bool := x.occurred_at ≤ y.occurred_at

/-- The subselect of `claimBatch`:
`SELECT id FROM outbox_graph_events WHERE status='pending' ORDER BY occurred_at
ASC LIMIT $1` (returning the rows rather than only the ids). -/
def claimSelected (db : List OutboxRecord) (limit : Nat) : List OutboxRecord :=
  ((db.filter (fun r => r.status == Status.pending)).mergeSort occLe).take limit

/-- Embedding of `claimBatch`: select up to `limit` pending records ordered by
`occurred_at` ascending, set them to processing in the same statement, and
return the updated rows together with the updated table. -/
def claimBatch (db : List OutboxRecord) (limit : Nat) :
    List OutboxRecord × List OutboxRecord :=
  let selected := claimSelected db limit
  let ids := selected.map (fun r => r.rid)
  let batch := selected.map (fun r => { r with status := Status.processing })
  let db2 := db.map (fun r =>
    if ids.contains r.rid then { r with status := Status.processing } else r)
  (batch, db2)

/-! ## Retry / failure state machine (the worker's outcome write-backs) -/

/-- The success write-back:
`UPDATE outbox_graph_events SET status='done', attempts=attempts+1 WHERE id=$1`.
Note that the `error` column is not touched. -/
def doneWriteBack (r : OutboxRecord) : OutboxRecord :=
  { r with status := Status.done, attempts := r.attempts + 1 }

/-- The failure write-back of the worker's catch block:
`newAttempts = ev.attempts + 1; newStatus = newAttempts >= 5 ? "failed" : "pending"`,
then `SET attempts=$1, status=$2, error=$3`. -/
def failWriteBack (r : OutboxRecord) (msg : String) : OutboxRecord :=
  let newAttempts := r.attempts + 1
  let newStatus := if 5 ≤ newAttempts then Status.failed else Status.pending
  { r with attempts := newAttempts, status := newStatus, error := some msg }

/-! ## Worker loop: dispatch and sequential batch processing -/

/-- Dispatch by `ev.event_type`; `none` means no graph-store call is made
(the unknown-kind branch only logs). -/
def dispatch (t : String) (r : OutboxRecord) (g : Graph) : Option (Except String Graph) :=
  if r.event_type == "triple.insert" then some (processTriple t r.payload g)
  else if r.event_type == "factlet.insert" then some (processFactlet t r.payload g)
  else if r.event_type == "source_participation.insert" then
    some (processSourceParticipation t r.payload g)
  else none

/-- One iteration of the worker's per-record loop body: dispatch, then mark done
on success (or on an unknown kind), or run the catch block on failure. -/
def workerStep (t : String) (g : Graph) (r : OutboxRecord) : Graph × OutboxRecord :=
  match dispatch t r g with
  | none => (g, doneWriteBack r)
  | some (.ok g2) => (g2, doneWriteBack r)
  | some (.error msg) => (g, failWriteBack r msg)

/-- The process environment. -/
structure Env where
  vars : List (String × String)
deriving Repr, DecidableEq

/-- `process.env.K`, an optional string. -/
def Env.get (e : Env) (k : String) : Option String :=
  (e.vars.find? (fun kv => kv.1 == k)).map (fun kv => kv.2)

/-- `parseInt(str, 10)` on a decimal digit string. -/
def parseDec (s : String) : Nat :=
  s.data.foldl (fun acc c => acc * 10 + (c.toNat - 48)) 0

/-- `parseInt(process.env.BATCH_SIZE || "500", 10)`. -/
def batchSizeOf (e : Env) : Nat := parseDec (jsOrStr (e.get "BATCH_SIZE") "500")

/-- `parseInt(process.env.POLL_INTERVAL_MS || "2000", 10)`. -/
def pollIntervalOf (e : Env) : Nat := parseDec (jsOrStr (e.get "POLL_INTERVAL_MS") "2000")

/-- The failure write-back as a function of the environment: the worker's catch
block reads no configuration, the attempt cap is the literal 5. -/
def failWriteBackEnv (_e : Env) (r : OutboxRecord) (msg : String) : OutboxRecord :=
  failWriteBack r msg

/-- Repeated failures: fold the failure write-back over a list of error messages. -/
def failRun (r : OutboxRecord) (msgs : List String) : OutboxRecord :=
  msgs.foldl (fun acc m => failWriteBack acc m) r

/-! ## Shutdown handlers

The store effects a record's processing performs, and the effects of the
SIGINT/SIGTERM handlers, as atomic actions between `await` points. -/

inductive Action where
  | graphWrite
  | outcomeWrite
  | closeGraph
  | closeDb
  | exitProc
deriving Repr, DecidableEq

/-- The SIGINT/SIGTERM handler body: `await driver.close(); await pool.end();
process.exit(0)`. It contains no outbox write and no wait for the worker. -/
def shutdownHandlerActions : List Action := [.closeGraph, .closeDb, .exitProc]

/-- The per-record store effects of the worker loop body, in order: the graph
write, then the outcome write-back. -/
def recordActions : List Action := [.graphWrite, .outcomeWrite]

/-- The actions executed when a termination signal is delivered after the
record's first `k` actions: the handler runs at that await point and
`process.exit` prevents the rest of the record's actions. -/
def traceWithSignalAfter (k : Nat) : List Action :=
  recordActions.take k ++ shutdownHandlerActions

/-- The claimed record's outbox status at process exit: `claimBatch` set it to
processing, and only the outcome write-back changes it afterwards. -/
def statusAfterTrace (tr : List Action) : Status :=
  if Action.outcomeWrite ∈ tr then Status.done else Status.processing

/-- Remove the properties whose key satisfies `bad`; used to compare graph
states "except for a last-observed style timestamp field". -/
def dropKeys (bad : String → Bool) (ps : Props) : Props :=
  ps.filter (fun kv => !bad kv.1)

/-- Graph state with the `updated_at` property of every ASSERTS relationship
removed: the single field a repeated triple.insert is allowed to touch. -/
def eraseTripleTS (g : Graph) : Graph :=
  { g with rels := g.rels.map (fun r =>
      if r.rtype == "ASSERTS" then
        { r with props := dropKeys (fun k => k == "updated_at") r.props } else r) }

/-- Graph state with the `last_verified` and `updated_at` properties of every
SourceParticipation node removed: the fields a repeated
source_participation.insert is allowed to touch. -/
def erasePartTS (g : Graph) : Graph :=
  { g with nodes := g.nodes.map (fun n =>
      if n.label == "SourceParticipation" then
        { n with props := dropKeys (fun k => k == "last_verified" || k == "updated_at") n.props }
      else n) }

/-- Iterate a transformer over the same payload at successive wall-clock times. -/
def applyEvents (f : String → Payload → Graph → Except String Graph) (p : Payload) :
    List String → Graph → Except String Graph
  | [], g => .ok g
  | t :: ts, g =>
    match f t p g with
    | .error e => .error e
    | .ok g2 => applyEvents f p ts g2

/-! ## Lemmas about property maps -/

theorem setProps_nil (ps : Props) : setProps ps [] = ps := rfl

theorem setProps_one (ps : Props) (k : String) (v : PropVal) :
    setProps ps [(k, v)] = setProp ps k v := rfl

theorem setProps_two (ps : Props) (k1 k2 : String) (v1 v2 : PropVal) :
    setProps ps [(k1, v1), (k2, v2)] = setProp (setProp ps k1 v1) k2 v2 := rfl

theorem dropKeys_map_set {bad : String → Bool} {k : String} (h : bad k = true)
    (ps : Props) (v : PropVal) :
    dropKeys bad (ps.map (fun kv => if kv.1 == k then (k, v) else kv)) = dropKeys bad ps := by
  induction ps with
  | nil => rfl
  | cons kv tl ih =>
    rw [List.map_cons]
    unfold dropKeys at ih ⊢
    by_cases hk : (kv.1 == k) = true
    · have hk1 : kv.1 = k := by simpa using hk
      rw [if_pos hk, List.filter_cons, List.filter_cons,
        if_neg (by simp [h] : ¬((!bad (k, v).1) = true)),
        if_neg (by simp [hk1, h] : ¬((!bad kv.1) = true))]
      exact ih
    · rw [if_neg hk, List.filter_cons, List.filter_cons]
      by_cases hb : (!bad kv.1) = true
      · rw [if_pos hb, if_pos hb, ih]
      · rw [if_neg hb, if_neg hb]
        exact ih

theorem dropKeys_setProp {bad : String → Bool} {k : String} (h : bad k = true)
    (ps : Props) (v : PropVal) : dropKeys bad (setProp ps k v) = dropKeys bad ps := by
  unfold setProp
  split
  · exact dropKeys_map_set h ps v
  · simp [dropKeys, List.filter_append, h]

/-! ## Lemmas about node and relationship merges -/

theorem nodeMatches_update (l i : String) (n : GNode) (ps : Props) :
    nodeMatches l i { n with props := ps } = nodeMatches l i n := rfl

theorem relMatches_update (sl si rt : String) (kp : Props) (dl di : String)
    (r : GRel) (ps : Props) :
    relMatches sl si rt kp dl di { r with props := ps } = relMatches sl si rt kp dl di r := rfl

theorem rels_mergeNode (g : Graph) (l i : String) (oc om : Props) :
    (mergeNode g l i oc om).rels = g.rels := by
  unfold mergeNode; split <;> rfl

theorem nodes_mergeRel (g : Graph) (sl si rt : String) (kp : Props) (dl di : String)
    (oc om : Props) : (mergeRel g sl si rt kp dl di oc om).nodes = g.nodes := by
  unfold mergeRel; split <;> rfl

theorem any_nodes_mergeNode (g : Graph) (l i l2 i2 : String) (oc om : Props) :
    g.nodes.any (nodeMatches l2 i2) = true →
    (mergeNode g l i oc om).nodes.any (nodeMatches l2 i2) = true := by
  intro h
  unfold mergeNode
  split
  · simp only [List.any_map]
    have : (fun n => nodeMatches l2 i2
        (if nodeMatches l i n then { n with props := setProps n.props om } else n))
        = nodeMatches l2 i2 := by
      funext n
      by_cases hc : nodeMatches l i n <;> simp [hc, nodeMatches_update]
    rw [show ((nodeMatches l2 i2) ∘ (fun n =>
        if nodeMatches l i n then { n with props := setProps n.props om } else n))
        = nodeMatches l2 i2 from this]
    exact h
  · simp [List.any_append, h]

theorem mergeNode_creates (g : Graph) (l i : String) (oc om : Props) :
    (mergeNode g l i oc om).nodes.any (nodeMatches l i) = true := by
  unfold mergeNode
  split
  · next h =>
    simp only [List.any_map]
    have : (fun n => nodeMatches l i
        (if nodeMatches l i n then { n with props := setProps n.props om } else n))
        = nodeMatches l i := by
      funext n
      by_cases hc : nodeMatches l i n <;> simp [hc, nodeMatches_update]
    rw [show ((nodeMatches l i) ∘ (fun n =>
        if nodeMatches l i n then { n with props := setProps n.props om } else n))
        = nodeMatches l i from this]
    exact h
  · simp [List.any_append, nodeMatches]

theorem mergeNode_present_nil (g : Graph) (l i : String) (oc : Props)
    (h : g.nodes.any (nodeMatches l i) = true) : mergeNode g l i oc [] = g := by
  unfold mergeNode
  rw [if_pos h]
  have : (fun n => if nodeMatches l i n then { n with props := setProps n.props [] } else n)
      = fun (n : GNode) => n := by
    funext n
    by_cases hc : nodeMatches l i n <;> simp [hc, setProps]
  rw [this]
  simp

theorem any_rels_mergeRel (g : Graph) (sl si rt : String) (kp : Props) (dl di : String)
    (sl2 si2 rt2 : String) (kp2 : Props) (dl2 di2 : String) (oc om : Props) :
    g.rels.any (relMatches sl2 si2 rt2 kp2 dl2 di2) = true →
    (mergeRel g sl si rt kp dl di oc om).rels.any (relMatches sl2 si2 rt2 kp2 dl2 di2) = true := by
  intro h
  unfold mergeRel
  split
  · simp only [List.any_map]
    have : (fun r => relMatches sl2 si2 rt2 kp2 dl2 di2
        (if relMatches sl si rt kp dl di r then { r with props := setProps r.props om } else r))
        = relMatches sl2 si2 rt2 kp2 dl2 di2 := by
      funext r
      by_cases hc : relMatches sl si rt kp dl di r <;> simp [hc, relMatches_update]
    rw [show ((relMatches sl2 si2 rt2 kp2 dl2 di2) ∘ (fun r =>
        if relMatches sl si rt kp dl di r then { r with props := setProps r.props om } else r))
        = relMatches sl2 si2 rt2 kp2 dl2 di2 from this]
    exact h
  · simp [List.any_append, h]

theorem mergeRel_creates (g : Graph) (sl si rt : String) (kp : Props) (dl di : String)
    (oc om : Props) :
    (mergeRel g sl si rt kp dl di oc om).rels.any (relMatches sl si rt kp dl di) = true := by
  unfold mergeRel
  split
  · next h =>
    simp only [List.any_map]
    have : (fun r => relMatches sl si rt kp dl di
        (if relMatches sl si rt kp dl di r then { r with props := setProps r.props om } else r))
        = relMatches sl si rt kp dl di := by
      funext r
      by_cases hc : relMatches sl si rt kp dl di r <;> simp [hc, relMatches_update]
    rw [show ((relMatches sl si rt kp dl di) ∘ (fun r =>
        if relMatches sl si rt kp dl di r then { r with props := setProps r.props om } else r))
        = relMatches sl si rt kp dl di from this]
    exact h
  · simp [List.any_append, relMatches]

theorem mergeRel_present_nil (g : Graph) (sl si rt : String) (kp : Props) (dl di : String)
    (oc : Props) (h : g.rels.any (relMatches sl si rt kp dl di) = true) :
    mergeRel g sl si rt kp dl di oc [] = g := by
  unfold mergeRel
  rw [if_pos h]
  have : (fun r => if relMatches sl si rt kp dl di r
      then { r with props := setProps r.props [] } else r) = fun (r : GRel) => r := by
    funext r
    by_cases hc : relMatches sl si rt kp dl di r <;> simp [hc, setProps]
  rw [this]
  simp

theorem any_nodes_mergeNode_other (g : Graph) (l i l2 i2 : String) (oc om : Props)
    (hne : (l == l2 && i == i2) = false) :
    (mergeNode g l i oc om).nodes.any (nodeMatches l2 i2) = g.nodes.any (nodeMatches l2 i2) := by
  unfold mergeNode
  split
  · rw [List.any_map]
    have : ((nodeMatches l2 i2) ∘ (fun n =>
        if nodeMatches l i n then { n with props := setProps n.props om } else n))
        = nodeMatches l2 i2 := by
      funext n
      by_cases hc : nodeMatches l i n <;> simp [hc, nodeMatches_update]
    rw [this]
  · rw [List.any_append]
    have : ([(⟨l, i, setProps [] oc⟩ : GNode)].any (nodeMatches l2 i2)) = false := by
      simp only [List.any_cons, List.any_nil, Bool.or_false]
      exact hne
    rw [this, Bool.or_false]

theorem eraseTripleTS_mergeRel_match (g : Graph) (sl si : String) (kp : Props)
    (dl di : String) (oc : Props) (v : PropVal)
    (h : g.rels.any (relMatches sl si "ASSERTS" kp dl di) = true) :
    eraseTripleTS (mergeRel g sl si "ASSERTS" kp dl di oc [("updated_at", v)]) =
      eraseTripleTS g := by
  unfold mergeRel
  rw [if_pos h]
  unfold eraseTripleTS
  simp only [List.map_map]
  congr 1
  apply List.map_congr_left
  intro r _
  by_cases hc : relMatches sl si "ASSERTS" kp dl di r = true
  · have h3 : (r.rtype == "ASSERTS") = true := by
      simp only [relMatches, Bool.and_eq_true] at hc
      exact hc.2.2.1
    have h4 : r.rtype = "ASSERTS" := by simpa using h3
    have hdrop := @dropKeys_setProp (fun k => k == "updated_at")
      "updated_at" (by decide) r.props v
    simp [hc, h4, setProps_one, hdrop]
  · simp [hc]

theorem erasePartTS_mergeNode_match (g : Graph) (i : String) (oc : Props) (v1 v2 : PropVal)
    (h : g.nodes.any (nodeMatches "SourceParticipation" i) = true) :
    erasePartTS (mergeNode g "SourceParticipation" i oc
      [("last_verified", v1), ("updated_at", v2)]) = erasePartTS g := by
  unfold mergeNode
  rw [if_pos h]
  unfold erasePartTS
  simp only [List.map_map]
  congr 1
  apply List.map_congr_left
  intro n _
  by_cases hc : nodeMatches "SourceParticipation" i n = true
  · have h3 : (n.label == "SourceParticipation") = true := by
      simp only [nodeMatches, Bool.and_eq_true] at hc
      exact hc.1
    have hd2 := @dropKeys_setProp (fun k => k == "last_verified" || k == "updated_at")
      "updated_at" (by decide) (setProp n.props "last_verified" v1) v2
    have h4 : n.label = "SourceParticipation" := by simpa using h3
    have hd1 := @dropKeys_setProp (fun k => k == "last_verified" || k == "updated_at")
      "last_verified" (by decide) n.props v1
    simp [hc, h4, setProps_two, hd2, hd1]
  · simp [hc]

/-! ## Post-state invariants of the transformers, and idempotence steps -/

/-- After a triple.insert, the two entity nodes and the ASSERTS relationship
for the payload's natural keys are present. -/
def tripleInv (p : Payload) (g : Graph) : Prop :=
  g.nodes.any (nodeMatches "Entity" (sha256 (strOf p.subject))) = true ∧
  g.nodes.any (nodeMatches "Entity" (sha256 (strOf p.object))) = true ∧
  g.rels.any (relMatches "Entity" (sha256 (strOf p.subject)) "ASSERTS"
    [("predicate", .str (strOf p.predicate))] "Entity" (sha256 (strOf p.object))) = true

theorem processTriple_ok (p : Payload) (hv : validTriple p = true) (t : String) (g : Graph) :
    ∃ g2, processTriple t p g = .ok g2 ∧ tripleInv p g2 ∧
      (tripleInv p g →
        eraseTripleTS g2 = eraseTripleTS g ∧ g2.nodes = g.nodes) := by
  unfold processTriple
  rw [hv]
  simp only [Bool.not_true, Bool.false_eq_true, if_false]
  refine ⟨_, rfl, ?_, ?_⟩
  · refine ⟨?_, ?_, ?_⟩
    · rw [show ∀ gg : Graph, (mergeRel gg "Entity" (sha256 (strOf p.subject)) "ASSERTS"
          [("predicate", .str (strOf p.predicate))] "Entity" (sha256 (strOf p.object))
          [("created_at", .str (jsOrStr p.created_at t))]
          [("updated_at", .str (jsOrStr p.created_at t))]).nodes = gg.nodes
        from fun gg => nodes_mergeRel ..]
      exact any_nodes_mergeNode _ _ _ _ _ _ _ (mergeNode_creates ..)
    · rw [show ∀ gg : Graph, (mergeRel gg "Entity" (sha256 (strOf p.subject)) "ASSERTS"
          [("predicate", .str (strOf p.predicate))] "Entity" (sha256 (strOf p.object))
          [("created_at", .str (jsOrStr p.created_at t))]
          [("updated_at", .str (jsOrStr p.created_at t))]).nodes = gg.nodes
        from fun gg => nodes_mergeRel ..]
      exact mergeNode_creates ..
    · exact mergeRel_creates ..
  · rintro ⟨h1, h2, h3⟩
    rw [mergeNode_present_nil _ _ _ _ h1,
      mergeNode_present_nil _ _ _ _ h2]
    exact ⟨eraseTripleTS_mergeRel_match _ _ _ _ _ _ _ _ h3, nodes_mergeRel ..⟩

theorem applyEvents_triple (p : Payload) (hv : validTriple p = true) (ts : List String) :
    ∀ g, tripleInv p g →
      ∃ gN, applyEvents processTriple p ts g = .ok gN ∧
        eraseTripleTS gN = eraseTripleTS g ∧ gN.nodes = g.nodes ∧ tripleInv p gN := by
  induction ts with
  | nil => exact fun g hg => ⟨g, rfl, rfl, rfl, hg⟩
  | cons t ts ih =>
    intro g hg
    obtain ⟨g2, hok, hinv, hsame⟩ := processTriple_ok p hv t g
    obtain ⟨he, hn⟩ := hsame hg
    obtain ⟨gN, hN, heN, hnN, hinvN⟩ := ih g2 hinv
    exact ⟨gN, by simpa [applyEvents, hok] using hN, heN.trans he, hnN.trans hn, hinvN⟩

/-- After a factlet.insert, the Factlet node, WebPage node and FROM_PAGE
relationship for the payload's natural keys are present. -/
def factletInv (p : Payload) (g : Graph) : Prop :=
  g.nodes.any (nodeMatches "Factlet" (sha256 (strOf p.crouton_id))) = true ∧
  g.nodes.any (nodeMatches "WebPage" (sha256 (strOf p.source_url))) = true ∧
  g.rels.any (relMatches "Factlet" (sha256 (strOf p.crouton_id)) "FROM_PAGE" []
    "WebPage" (sha256 (strOf p.source_url))) = true

theorem processFactlet_ok (p : Payload) (hv : validFactlet p = true) (t : String) (g : Graph) :
    ∃ g2, processFactlet t p g = .ok g2 ∧ factletInv p g2 ∧
      (factletInv p g → g2 = g) := by
  unfold processFactlet
  rw [hv]
  simp only [Bool.not_true, Bool.false_eq_true, if_false]
  refine ⟨_, rfl, ?_, ?_⟩
  · refine ⟨?_, ?_, ?_⟩
    · rw [show ∀ gg : Graph, (mergeRel gg "Factlet" (sha256 (strOf p.crouton_id)) "FROM_PAGE"
          [] "WebPage" (sha256 (strOf p.source_url)) [] []).nodes = gg.nodes
        from fun gg => nodes_mergeRel ..]
      exact any_nodes_mergeNode _ _ _ _ _ _ _ (mergeNode_creates ..)
    · rw [show ∀ gg : Graph, (mergeRel gg "Factlet" (sha256 (strOf p.crouton_id)) "FROM_PAGE"
          [] "WebPage" (sha256 (strOf p.source_url)) [] []).nodes = gg.nodes
        from fun gg => nodes_mergeRel ..]
      exact mergeNode_creates ..
    · exact mergeRel_creates ..
  · rintro ⟨h1, h2, h3⟩
    rw [mergeNode_present_nil _ _ _ _ h1,
      mergeNode_present_nil _ _ _ _ h2,
      mergeRel_present_nil _ _ _ _ _ _ _ _ h3]

theorem applyEvents_factlet (p : Payload) (hv : validFactlet p = true) (ts : List String) :
    ∀ g, factletInv p g →
      applyEvents processFactlet p ts g = .ok g := by
  induction ts with
  | nil => exact fun g _ => rfl
  | cons t ts ih =>
    intro g hg
    obtain ⟨g2, hok, _, hsame⟩ := processFactlet_ok p hv t g
    have h2 : g2 = g := hsame hg
    rw [h2] at hok
    simpa [applyEvents, hok] using ih g hg

/-- After a source_participation.insert, the SourceDomain, Crouton and
SourceParticipation nodes and both relationships are present. -/
def partInv (p : Payload) (g : Graph) : Prop :=
  g.nodes.any (nodeMatches "SourceDomain" (sha256 (strOf p.source_domain))) = true ∧
  g.nodes.any (nodeMatches "Crouton" (strOf p.crouton_id)) = true ∧
  g.nodes.any (nodeMatches "SourceParticipation"
    (sha256 (strOf p.crouton_id ++ ":" ++ strOf p.source_url))) = true ∧
  g.rels.any (relMatches "SourceDomain" (sha256 (strOf p.source_domain)) "HAS_PARTICIPATION" []
    "SourceParticipation" (sha256 (strOf p.crouton_id ++ ":" ++ strOf p.source_url))) = true ∧
  g.rels.any (relMatches "SourceParticipation"
    (sha256 (strOf p.crouton_id ++ ":" ++ strOf p.source_url)) "TRACKS_CROUTON" []
    "Crouton" (strOf p.crouton_id)) = true

theorem processSourceParticipation_ok (p : Payload) (hv : validPart p = true)
    (t : String) (g : Graph) :
    ∃ g2, processSourceParticipation t p g = .ok g2 ∧ partInv p g2 ∧
      (partInv p g →
        erasePartTS g2 = erasePartTS g ∧ g2.rels = g.rels) := by
  unfold processSourceParticipation
  rw [hv]
  simp only [Bool.not_true, Bool.false_eq_true, if_false]
  refine ⟨_, rfl, ?_, ?_⟩
  · refine ⟨?_, ?_, ?_, ?_, ?_⟩
    · rw [nodes_mergeRel, nodes_mergeRel]
      exact any_nodes_mergeNode _ _ _ _ _ _ _
        (any_nodes_mergeNode _ _ _ _ _ _ _ (mergeNode_creates ..))
    · rw [nodes_mergeRel, nodes_mergeRel]
      exact any_nodes_mergeNode _ _ _ _ _ _ _ (mergeNode_creates ..)
    · rw [nodes_mergeRel, nodes_mergeRel]
      exact mergeNode_creates ..
    · exact any_rels_mergeRel _ _ _ _ _ _ _ _ _ _ _ _ _ _ _ (mergeRel_creates ..)
    · exact mergeRel_creates ..
  · rintro ⟨h1, h2, h3, h4, h5⟩
    rw [mergeNode_present_nil _ _ _ _ h1,
      mergeNode_present_nil _ _ _ _ h2]
    have hrels3 : ∀ oc om, (mergeNode g "SourceParticipation"
        (sha256 (strOf p.crouton_id ++ ":" ++ strOf p.source_url)) oc om).rels = g.rels :=
      fun oc om => rels_mergeNode ..
    have h4' : (mergeNode g "SourceParticipation"
        (sha256 (strOf p.crouton_id ++ ":" ++ strOf p.source_url))
        (spOnCreate t p) (spOnMatch t p)).rels.any
        (relMatches "SourceDomain" (sha256 (strOf p.source_domain)) "HAS_PARTICIPATION" []
          "SourceParticipation" (sha256 (strOf p.crouton_id ++ ":" ++ strOf p.source_url)))
        = true := by rw [hrels3]; exact h4
    rw [mergeRel_present_nil _ _ _ _ _ _ _ _ h4']
    have h5' : (mergeNode g "SourceParticipation"
        (sha256 (strOf p.crouton_id ++ ":" ++ strOf p.source_url))
        (spOnCreate t p) (spOnMatch t p)).rels.any
        (relMatches "SourceParticipation"
          (sha256 (strOf p.crouton_id ++ ":" ++ strOf p.source_url)) "TRACKS_CROUTON" []
          "Crouton" (strOf p.crouton_id)) = true := by rw [hrels3]; exact h5
    rw [mergeRel_present_nil _ _ _ _ _ _ _ _ h5']
    exact ⟨erasePartTS_mergeNode_match _ _ _ _ _ h3, hrels3 _ _⟩

theorem applyEvents_part (p : Payload) (hv : validPart p = true) (ts : List String) :
    ∀ g, partInv p g →
      ∃ gN, applyEvents processSourceParticipation p ts g = .ok gN ∧
        erasePartTS gN = erasePartTS g ∧ gN.rels = g.rels ∧ partInv p gN := by
  induction ts with
  | nil => exact fun g hg => ⟨g, rfl, rfl, rfl, hg⟩
  | cons t ts ih =>
    intro g hg
    obtain ⟨g2, hok, hinv, hsame⟩ := processSourceParticipation_ok p hv t g
    obtain ⟨he, hn⟩ := hsame hg
    obtain ⟨gN, hN, heN, hnN, hinvN⟩ := ih g2 hinv
    exact ⟨gN, by simpa [applyEvents, hok] using hN, heN.trans he, hnN.trans hn, hinvN⟩

/-- C1: for every recognized event kind and every payload accepted by its
validation, applying the transformer N times with the same payload (N ≥ 1, at
arbitrary wall-clock times) produces a final graph state identical to applying
it once, except for the last-observed timestamp fields: the ASSERTS
relationship's updated_at for triple.insert, and the SourceParticipation
node's last_verified/updated_at for source_participation.insert. Node
identities and creation-time node properties are unchanged (for triple.insert
the node list is literally unchanged, for source_participation.insert the
relationship list is literally unchanged, and a repeated factlet.insert
changes nothing at all). -/
theorem claim_C1_idempotence (p : Payload) (g : Graph) (t : String) (ts : List String) :
    (validTriple p = true → ∃ g1 gN,
      processTriple t p g = .ok g1 ∧
      applyEvents processTriple p (t :: ts) g = .ok gN ∧
      eraseTripleTS gN = eraseTripleTS g1 ∧ gN.nodes = g1.nodes) ∧
    (validFactlet p = true → ∃ g1,
      processFactlet t p g = .ok g1 ∧
      applyEvents processFactlet p (t :: ts) g = .ok g1) ∧
    (validPart p = true → ∃ g1 gN,
      processSourceParticipation t p g = .ok g1 ∧
      applyEvents processSourceParticipation p (t :: ts) g = .ok gN ∧
      erasePartTS gN = erasePartTS g1 ∧ gN.rels = g1.rels) := by
  refine ⟨?_, ?_, ?_⟩
  · intro hv
    obtain ⟨g1, hok, hinv, _⟩ := processTriple_ok p hv t g
    obtain ⟨gN, hN, he, hn, _⟩ := applyEvents_triple p hv ts g1 hinv
    exact ⟨g1, gN, hok, by simpa [applyEvents, hok] using hN, he, hn⟩
  · intro hv
    obtain ⟨g1, hok, hinv, _⟩ := processFactlet_ok p hv t g
    have hN := applyEvents_factlet p hv ts g1 hinv
    exact ⟨g1, hok, by simpa [applyEvents, hok] using hN⟩
  · intro hv
    obtain ⟨g1, hok, hinv, _⟩ := processSourceParticipation_ok p hv t g
    obtain ⟨gN, hN, he, hn, _⟩ := applyEvents_part p hv ts g1 hinv
    exact ⟨g1, gN, hok, by simpa [applyEvents, hok] using hN, he, hn⟩

/-- A payload that passes the validation of all three event kinds. -/
def pAll : Payload :=
  { subject := some "A", predicate := some "knows", object := some "B",
    created_at := some "2024-01-01T00:00:00Z",
    crouton_id := some "c-1", source_url := some "https://example.com/p",
    text := some "claim text", source_domain := some "example.com",
    ai_readable_source := some true,
    discovery_method := some "crawl", first_observed := some "2024-01-02T00:00:00Z" }

/-- Witness for C1 at a concrete valid payload, empty graph and two
invocations. -/
theorem claim_C1_idempotence_witness :
    (∃ g1 gN, processTriple "T1" pAll emptyGraph = .ok g1 ∧
      applyEvents processTriple pAll ["T1", "T2"] emptyGraph = .ok gN ∧
      eraseTripleTS gN = eraseTripleTS g1 ∧ gN.nodes = g1.nodes) ∧
    (∃ g1, processFactlet "T1" pAll emptyGraph = .ok g1 ∧
      applyEvents processFactlet pAll ["T1", "T2"] emptyGraph = .ok g1) ∧
    (∃ g1 gN, processSourceParticipation "T1" pAll emptyGraph = .ok g1 ∧
      applyEvents processSourceParticipation pAll ["T1", "T2"] emptyGraph = .ok gN ∧
      erasePartTS gN = erasePartTS g1 ∧ gN.rels = g1.rels) :=
  ⟨(claim_C1_idempotence pAll emptyGraph "T1" ["T2"]).1 (by decide),
   (claim_C1_idempotence pAll emptyGraph "T1" ["T2"]).2.1 (by decide),
   (claim_C1_idempotence pAll emptyGraph "T1" ["T2"]).2.2 (by decide)⟩

/-! ## Lemmas about the claim protocol and the worker loop -/

theorem claimBatch_fst (db : List OutboxRecord) (limit : Nat) :
    (claimBatch db limit).1 =
      (claimSelected db limit).map (fun r => { r with status := Status.processing }) := rfl

theorem claimSelected_mem {db : List OutboxRecord} {limit : Nat} {r0 : OutboxRecord}
    (h : r0 ∈ claimSelected db limit) : r0 ∈ db ∧ r0.status = Status.pending := by
  unfold claimSelected at h
  have h1 := List.mem_of_mem_take h
  rw [List.mem_mergeSort, List.mem_filter] at h1
  exact ⟨h1.1, by simpa using h1.2⟩

theorem claimBatch_batch_mem {db : List OutboxRecord} {limit : Nat} {rb : OutboxRecord}
    (h : rb ∈ (claimBatch db limit).1) :
    ∃ r0, r0 ∈ db ∧ r0.status = Status.pending ∧
      rb = { r0 with status := Status.processing } := by
  rw [claimBatch_fst] at h
  simp only [List.mem_map] at h
  obtain ⟨r0, hr0, hb⟩ := h
  obtain ⟨hdb, hp⟩ := claimSelected_mem hr0
  exact ⟨r0, hdb, hp, hb.symm⟩

/-- C3 (amended): a missing or empty required payload field makes the
transformer fail before any graph write — the worker's graph state is
unchanged — and the outcome write-back increments attempts, records the thrown
error message, and moves the record to pending when attempts+1 < 5 but to
failed when attempts+1 >= 5. -/
theorem claim_C3_validation (t : String) (g : Graph) (r : OutboxRecord) :
    (r.event_type = "triple.insert" → validTriple r.payload = false →
      dispatch t r g = some (.error "Missing required triple fields") ∧
      workerStep t g r = (g, failWriteBack r "Missing required triple fields")) ∧
    (r.event_type = "factlet.insert" → validFactlet r.payload = false →
      dispatch t r g = some (.error "Missing required factlet fields") ∧
      workerStep t g r = (g, failWriteBack r "Missing required factlet fields")) ∧
    (r.event_type = "source_participation.insert" → validPart r.payload = false →
      dispatch t r g = some (.error "Missing required source participation fields") ∧
      workerStep t g r = (g, failWriteBack r "Missing required source participation fields")) ∧
    (∀ msg : String,
      (failWriteBack r msg).attempts = r.attempts + 1 ∧
      (failWriteBack r msg).error = some msg ∧
      (failWriteBack r msg).status =
        (if 5 ≤ r.attempts + 1 then Status.failed else Status.pending)) := by
  refine ⟨?_, ?_, ?_, ?_⟩
  · intro he hv
    have hd : dispatch t r g = some (.error "Missing required triple fields") := by
      simp [dispatch, he, processTriple, hv]
    exact ⟨hd, by simp [workerStep, hd]⟩
  · intro he hv
    have hd : dispatch t r g = some (.error "Missing required factlet fields") := by
      simp [dispatch, he, processFactlet, hv]
    exact ⟨hd, by simp [workerStep, hd]⟩
  · intro he hv
    have hd : dispatch t r g =
        some (.error "Missing required source participation fields") := by
      simp [dispatch, he, processSourceParticipation, hv]
    exact ⟨hd, by simp [workerStep, hd]⟩
  · intro msg
    exact ⟨rfl, rfl, rfl⟩

/-- A triple payload with an empty subject. -/
def pEmptySubject : Payload :=
  { subject := some "", predicate := some "knows", object := some "B" }

/-- A claimed record with an empty subject and four prior attempts. -/
def recC3 : OutboxRecord := ⟨31, "triple.insert", pEmptySubject, 0, 4, Status.processing, none⟩

/-- C3 counterexample: a validation failure on a record with attempts = 4 is
written back as failed, not pending as the claim states; the graph is still
untouched. -/
theorem claim_C3_counterexample :
    (workerStep "T0" emptyGraph recC3).1 = emptyGraph ∧
    (workerStep "T0" emptyGraph recC3).2.attempts = 5 ∧
    (workerStep "T0" emptyGraph recC3).2.status = Status.failed ∧
    Status.failed ≠ Status.pending := by decide

/-- A freshly claimed record with an empty subject and no prior attempts. -/
def recC3b : OutboxRecord := ⟨32, "triple.insert", pEmptySubject, 0, 0, Status.processing, none⟩

/-- Witness for the amended C3 on a fresh record: fail-fast, error set,
attempts 1, status pending. -/
theorem claim_C3_validation_witness :
    (dispatch "T0" recC3b emptyGraph = some (.error "Missing required triple fields") ∧
      workerStep "T0" emptyGraph recC3b =
        (emptyGraph, failWriteBack recC3b "Missing required triple fields")) ∧
    (failWriteBack recC3b "Missing required triple fields").status =
      (if 5 ≤ recC3b.attempts + 1 then Status.failed else Status.pending) :=
  ⟨(claim_C3_validation "T0" emptyGraph recC3b).1 rfl (by decide),
   ((claim_C3_validation "T0" emptyGraph recC3b).2.2.2 "Missing required triple fields").2.2⟩

/-! ## Retry and dead-letter state machine (C4) -/

/-- C4: a failure write-back increments attempts and sets the error; it
returns the record to pending while attempts+1 < 5 and dead-letters it to
failed once attempts+1 >= 5; as long as record ids are unique (id is the
table's primary key), no row returned by claimBatch ever carries the id of a
record whose status is failed, so a dead-lettered record re-enters the
pipeline only through an external reset; and five failures in a row starting
from attempts = 0 end in failed with attempts = 5. -/
theorem claim_C4_retry (r : OutboxRecord) (msg : String) (db : List OutboxRecord)
    (limit : Nat) :
    (failWriteBack r msg).attempts = r.attempts + 1 ∧
    (failWriteBack r msg).error = some msg ∧
    (r.attempts + 1 < 5 → (failWriteBack r msg).status = Status.pending) ∧
    (5 ≤ r.attempts + 1 → (failWriteBack r msg).status = Status.failed) ∧
    ((db.map (fun x => x.rid)).Nodup → r ∈ db → r.status = Status.failed →
      r.rid ∉ ((claimBatch db limit).1.map (fun x => x.rid))) ∧
    (r.attempts = 0 → ∀ m1 m2 m3 m4 m5 : String,
      (failRun r [m1, m2, m3, m4, m5]).status = Status.failed ∧
      (failRun r [m1, m2, m3, m4, m5]).attempts = 5) := by
  refine ⟨rfl, rfl, ?_, ?_, ?_, ?_⟩
  · intro h
    show (if 5 ≤ r.attempts + 1 then Status.failed else Status.pending) = Status.pending
    rw [if_neg (by omega)]
  · intro h
    show (if 5 ≤ r.attempts + 1 then Status.failed else Status.pending) = Status.failed
    rw [if_pos h]
  · intro hnd hrdb hf hmem
    rw [List.mem_map] at hmem
    obtain ⟨rb, hrb, hre⟩ := hmem
    obtain ⟨r0, hr0db, hr0p, hb⟩ := claimBatch_batch_mem hrb
    rw [hb] at hre
    have heq : r0 = r := List.inj_on_of_nodup_map hnd hr0db hrdb hre
    rw [heq, hf] at hr0p
    exact absurd hr0p (by simp)
  · intro h0 m1 m2 m3 m4 m5
    simp [failRun, failWriteBack, h0]

/-- A fresh record and a dead-lettered record used by the C4 witness. -/
def recC4 : OutboxRecord := ⟨41, "triple.insert", pAll, 0, 0, Status.processing, none⟩

def recC4failed : OutboxRecord := ⟨42, "triple.insert", pAll, 0, 5, Status.failed, some "boom"⟩

/-- Witness for C4 at concrete records: the dead-lettered record's id is not
among the ids claimed from a table that contains it. -/
theorem claim_C4_retry_witness :
    (failWriteBack recC4 "boom").status = Status.pending ∧
    (failRun recC4 ["e1", "e2", "e3", "e4", "e5"]).status = Status.failed ∧
    (failRun recC4 ["e1", "e2", "e3", "e4", "e5"]).attempts = 5 ∧
    recC4failed.rid ∉ ((claimBatch [recC4failed] 10).1.map (fun x => x.rid)) :=
  ⟨(claim_C4_retry recC4 "boom" [] 1).2.2.1 (by decide),
   ((claim_C4_retry recC4 "x" [] 1).2.2.2.2.2 rfl "e1" "e2" "e3" "e4" "e5").1,
   ((claim_C4_retry recC4 "x" [] 1).2.2.2.2.2 rfl "e1" "e2" "e3" "e4" "e5").2,
   (claim_C4_retry recC4failed "x" [recC4failed] 10).2.2.2.2.1
     (by decide) (by simp) rfl⟩

/-! ## Success write-back (C5) -/

/-- C5 (amended): when a claimed record with a recognized kind and valid
payload is processed, the write-back sets status done and increments attempts,
but leaves the error column unchanged — a leftover error string from a
previous failed attempt is not cleared. -/
theorem claim_C5_success (t : String) (g : Graph) (r : OutboxRecord) :
    ((r.event_type = "triple.insert" ∧ validTriple r.payload = true) ∨
     (r.event_type = "factlet.insert" ∧ validFactlet r.payload = true) ∨
     (r.event_type = "source_participation.insert" ∧ validPart r.payload = true)) →
    ∃ g2, dispatch t r g = some (.ok g2) ∧
      workerStep t g r = (g2, doneWriteBack r) ∧
      (workerStep t g r).2.status = Status.done ∧
      (workerStep t g r).2.attempts = r.attempts + 1 ∧
      (workerStep t g r).2.error = r.error := by
  intro h
  rcases h with ⟨he, hv⟩ | ⟨he, hv⟩ | ⟨he, hv⟩
  · obtain ⟨g2, hok, _, _⟩ := processTriple_ok r.payload hv t g
    have hd : dispatch t r g = some (.ok g2) := by simp [dispatch, he, hok]
    exact ⟨g2, hd, by simp [workerStep, hd], by simp [workerStep, hd, doneWriteBack],
      by simp [workerStep, hd, doneWriteBack], by simp [workerStep, hd, doneWriteBack]⟩
  · obtain ⟨g2, hok, _, _⟩ := processFactlet_ok r.payload hv t g
    have hd : dispatch t r g = some (.ok g2) := by simp [dispatch, he, hok]
    exact ⟨g2, hd, by simp [workerStep, hd], by simp [workerStep, hd, doneWriteBack],
      by simp [workerStep, hd, doneWriteBack], by simp [workerStep, hd, doneWriteBack]⟩
  · obtain ⟨g2, hok, _, _⟩ := processSourceParticipation_ok r.payload hv t g
    have hd : dispatch t r g = some (.ok g2) := by simp [dispatch, he, hok]
    exact ⟨g2, hd, by simp [workerStep, hd], by simp [workerStep, hd, doneWriteBack],
      by simp [workerStep, hd, doneWriteBack], by simp [workerStep, hd, doneWriteBack]⟩

/-- A claimed record with a valid triple payload and a leftover error string
from a previous failed attempt. -/
def recC5 : OutboxRecord :=
  ⟨51, "triple.insert", pAll, 0, 1, Status.processing, some "previous failure"⟩

/-- C5 counterexample: the success write-back does not clear the error column;
after a successful processing the record still carries its old error string,
contradicting "clears the error field". -/
theorem claim_C5_counterexample :
    dispatch "T0" recC5 emptyGraph = some (.ok (workerStep "T0" emptyGraph recC5).1) ∧
    (workerStep "T0" emptyGraph recC5).2.status = Status.done ∧
    (workerStep "T0" emptyGraph recC5).2.attempts = 2 ∧
    (workerStep "T0" emptyGraph recC5).2.error = some "previous failure" ∧
    some "previous failure" ≠ (none : Option String) :=
  ⟨rfl, rfl, rfl, rfl, by decide⟩

/-- Witness for the amended C5 at a concrete record. -/
theorem claim_C5_success_witness :
    ∃ g2, dispatch "T0" recC5 emptyGraph = some (.ok g2) ∧
      workerStep "T0" emptyGraph recC5 = (g2, doneWriteBack recC5) ∧
      (workerStep "T0" emptyGraph recC5).2.status = Status.done ∧
      (workerStep "T0" emptyGraph recC5).2.attempts = recC5.attempts + 1 ∧
      (workerStep "T0" emptyGraph recC5).2.error = recC5.error :=
  claim_C5_success "T0" emptyGraph recC5 (Or.inl ⟨rfl, by decide⟩)

/-! ## Unknown event kinds (C6) -/

/-- C6: a record whose event kind is not one of the three recognized kinds
causes no graph-store call (dispatch yields nothing and the graph is returned
unchanged) and is marked done by the success write-back, not a failure
transition: attempts is incremented and the error column is untouched. -/
theorem claim_C6_unknown_kind (t : String) (g : Graph) (r : OutboxRecord)
    (h1 : r.event_type ≠ "triple.insert") (h2 : r.event_type ≠ "factlet.insert")
    (h3 : r.event_type ≠ "source_participation.insert") :
    dispatch t r g = none ∧
    workerStep t g r = (g, doneWriteBack r) ∧
    (workerStep t g r).1 = g ∧
    (workerStep t g r).2.status = Status.done ∧
    (workerStep t g r).2.attempts = r.attempts + 1 ∧
    (workerStep t g r).2.error = r.error := by
  have hd : dispatch t r g = none := by
    simp [dispatch, h1, h2, h3]
  exact ⟨hd, by simp [workerStep, hd], by simp [workerStep, hd],
    by simp [workerStep, hd, doneWriteBack], by simp [workerStep, hd, doneWriteBack],
    by simp [workerStep, hd, doneWriteBack]⟩

/-- A claimed record with a future event kind. -/
def recC6 : OutboxRecord := ⟨61, "unknown.future_kind", {}, 0, 0, Status.processing, none⟩

/-- Witness for C6 at a concrete record. -/
theorem claim_C6_unknown_kind_witness :
    dispatch "T0" recC6 emptyGraph = none ∧
    workerStep "T0" emptyGraph recC6 = (emptyGraph, doneWriteBack recC6) ∧
    (workerStep "T0" emptyGraph recC6).1 = emptyGraph ∧
    (workerStep "T0" emptyGraph recC6).2.status = Status.done ∧
    (workerStep "T0" emptyGraph recC6).2.attempts = recC6.attempts + 1 ∧
    (workerStep "T0" emptyGraph recC6).2.error = recC6.error :=
  claim_C6_unknown_kind "T0" emptyGraph recC6 (by decide) (by decide) (by decide)

/-! ## Shutdown (C7) -/

/-- C7 counterexample: when the termination signal is delivered between the
in-flight record's graph write and its outcome write-back, the executed trace
closes the stores and exits without the outcome write-back ever running, so
the handler does not finish the in-flight record's write-back before closing;
the record is left in processing. -/
theorem claim_C7_counterexample :
    Action.outcomeWrite ∉ traceWithSignalAfter 1 ∧
    Action.graphWrite ∈ traceWithSignalAfter 1 ∧
    Action.closeGraph ∈ traceWithSignalAfter 1 ∧
    Action.exitProc ∈ traceWithSignalAfter 1 ∧
    statusAfterTrace (traceWithSignalAfter 1) = Status.processing := by decide

/-- C7 (amended): the SIGINT/SIGTERM handler closes both stores and exits
without waiting for the in-flight record — its action list performs no outbox
write — so the record's outcome write-back appears in the executed trace only
when the signal arrived after both of the record's store effects; in every
other interleaving the record stays in processing for external reset (it is
never marked done or lost in another state). -/
theorem claim_C7_shutdown (k : Nat) :
    (Action.outcomeWrite ∈ traceWithSignalAfter k ↔ 2 ≤ k) ∧
    statusAfterTrace (traceWithSignalAfter k) =
      (if 2 ≤ k then Status.done else Status.processing) ∧
    Action.outcomeWrite ∉ shutdownHandlerActions ∧
    Action.exitProc ∈ shutdownHandlerActions := by
  match k with
  | 0 => exact (by decide)
  | 1 => exact (by decide)
  | (n+2) =>
    have ht : recordActions.take (n+2) = recordActions :=
      List.take_of_length_le (by simp [recordActions])
    have hmem : Action.outcomeWrite ∈ traceWithSignalAfter (n+2) := by
      rw [traceWithSignalAfter, ht]
      decide
    refine ⟨⟨fun _ => by omega, fun _ => hmem⟩, ?_, by decide, by decide⟩
    rw [statusAfterTrace, if_pos hmem, if_pos (by omega)]

/-! ## Configuration surface (C8) -/

/-- An environment that tries to configure the attempt cap to 3. -/
def envMax3 : Env := ⟨[("MAX_ATTEMPTS", "3")]⟩

/-- A claimed record with two prior attempts and an empty subject. -/
def recC8 : OutboxRecord := ⟨81, "triple.insert", pEmptySubject, 0, 2, Status.processing, none⟩

/-- C8 counterexample: with MAX_ATTEMPTS=3 in the environment, a third failure
is written back as pending, not dead-lettered at the configured cap — the
attempt cap is not a recognized configuration option. -/
theorem claim_C8_counterexample :
    (failWriteBackEnv envMax3 recC8 "err").attempts = 3 ∧
    (failWriteBackEnv envMax3 recC8 "err").status = Status.pending ∧
    Status.pending ≠ Status.failed := by decide

/-- C8 (amended): batch size and poll interval are recognized configuration
options with defaults 500 and 2000 ms, but the attempt cap is the hard-coded
literal 5: the failure write-back reads nothing from the environment and
dead-letters exactly at attempts+1 >= 5, whatever the environment holds. -/
theorem claim_C8_config (e : Env) (r : OutboxRecord) (msg : String) :
    batchSizeOf ⟨[]⟩ = 500 ∧
    pollIntervalOf ⟨[]⟩ = 2000 ∧
    batchSizeOf ⟨[("BATCH_SIZE", "25")]⟩ = 25 ∧
    failWriteBackEnv e r msg = failWriteBack r msg ∧
    (failWriteBackEnv e r msg).status =
      (if 5 ≤ r.attempts + 1 then Status.failed else Status.pending) :=
  ⟨by decide, by decide, by decide, rfl, rfl⟩

/-! ## Fingerprint function (C9) -/

theorem word8Hex_subset (n : Nat) : ∀ c ∈ word8Hex n, c ∈ hexChars := by
  intro c hc
  simp only [word8Hex, List.mem_map] at hc
  obtain ⟨k, _, hck⟩ := hc
  have h16 : n / 16 ^ (7 - k) % 16 < 16 := Nat.mod_lt _ (by decide)
  have hfin : ∀ m : Fin 16, hexDigit m.val ∈ hexChars := by decide
  rw [← hck]
  exact hfin ⟨_, h16⟩

/-- C9: the fingerprint helper is a pure function of the input string — equal
inputs give equal digests, with no other arguments to vary across calls or
machines — and its output is always 64 lowercase hexadecimal characters
(a 256-bit hex digest). -/
theorem claim_C9_fingerprint (s u : String) :
    (s = u → sha256 s = sha256 u) ∧
    (sha256 s).length = 64 ∧
    (∀ c ∈ (sha256 s).data, c ∈ hexChars) := by
  refine ⟨fun h => by rw [h], ?_, ?_⟩
  · show (String.mk ((sha256Words _).words.map word8Hex).flatten).length = 64
    simp [String.length, Hash8.words, word8Hex]
  · intro c hc
    have hc2 : c ∈ ((sha256Words (strBytes s)).words.map word8Hex).flatten := hc
    rw [List.mem_flatten] at hc2
    obtain ⟨l, hl, hcl⟩ := hc2
    rw [List.mem_map] at hl
    obtain ⟨n, _, hn⟩ := hl
    rw [← hn] at hcl
    exact word8Hex_subset n c hcl

/-- Known SHA-256 vector, pinning the embedding to the real hash function. -/
theorem sha256_abc :
    sha256 "abc" = "ba7816bf8f01cfea414140de5dae2223b00361a396177a9cb410ff61f20015ad" := by
  decide

/-- Known SHA-256 vector for the empty string. -/
theorem sha256_empty :
    sha256 "" = "e3b0c44298fc1c149afbf4c8996fb92427ae41e4649b934ca495991b7852b855" := by
  decide

/-- Witness for C9 at a concrete input. -/
theorem claim_C9_fingerprint_witness :
    sha256 "abc" = sha256 "abc" ∧ (sha256 "abc").length = 64 :=
  ⟨(claim_C9_fingerprint "abc" "abc").1 rfl, (claim_C9_fingerprint "abc" "abc").2.1⟩

/-! ## Defaults of source_participation.insert (C10) -/

theorem mergeNode_absent (g : Graph) (l i : String) (oc om : Props)
    (h : g.nodes.any (nodeMatches l i) = false) :
    mergeNode g l i oc om = { g with nodes := g.nodes ++ [⟨l, i, setProps [] oc⟩] } := by
  unfold mergeNode
  rw [if_neg (by rw [h]; simp)]

theorem jsOrStr_falsy {o : Option String} {d : String} (h : truthyStr o = false) :
    jsOrStr o d = d := by
  cases o with
  | none => rfl
  | some s =>
    have h2 : s = "" := by simpa [truthyStr] using h
    simp [jsOrStr, h2]

theorem jsOrStr_truthy {o : Option String} {d s : String} (h : o = some s) (hs : s ≠ "") :
    jsOrStr o d = s := by
  subst h
  simp [jsOrStr, hs]

/-- C10: for a source_participation.insert payload that passes validation, the
properties written on node creation default the absent or falsy optional
fields: ai_readable_source and markdown_discovered to false, discovery_method
to "unknown", and first_observed and last_verified to the event's base
timestamp, which is payload.first_observed when present and nonempty, and the
current wall-clock time otherwise; on a graph without the participation node,
the transformer appends exactly that node. -/
theorem claim_C10_sp_defaults (t : String) (p : Payload) (hv : validPart p = true) :
    ((p.ai_readable_source = none ∨ p.ai_readable_source = some false) →
      List.lookup "ai_readable_source" (spOnCreate t p) = some (.bool false)) ∧
    ((p.markdown_discovered = none ∨ p.markdown_discovered = some false) →
      List.lookup "markdown_discovered" (spOnCreate t p) = some (.bool false)) ∧
    (truthyStr p.discovery_method = false →
      List.lookup "discovery_method" (spOnCreate t p) = some (.str "unknown")) ∧
    (truthyStr p.first_observed = false →
      spBaseTime t p = t ∧
      List.lookup "first_observed" (spOnCreate t p) = some (.str t)) ∧
    (∀ s, p.first_observed = some s → s ≠ "" → spBaseTime t p = s) ∧
    (truthyStr p.last_verified = false →
      List.lookup "last_verified" (spOnCreate t p) = some (.str (spBaseTime t p))) ∧
    (∀ g : Graph, g.nodes.any (nodeMatches "SourceParticipation"
        (sha256 (strOf p.crouton_id ++ ":" ++ strOf p.source_url))) = false →
      ∃ g5, processSourceParticipation t p g = .ok g5 ∧
        (⟨"SourceParticipation", sha256 (strOf p.crouton_id ++ ":" ++ strOf p.source_url),
          spOnCreate t p⟩ : GNode) ∈ g5.nodes) := by
  refine ⟨?_, ?_, ?_, ?_, ?_, ?_, ?_⟩
  · rintro (h | h) <;> simp [spOnCreate, h, jsOrBool, List.lookup]
  · rintro (h | h) <;> simp [spOnCreate, h, jsOrBool, List.lookup]
  · intro h
    simp [spOnCreate, List.lookup, jsOrStr_falsy h]
  · intro h
    refine ⟨jsOrStr_falsy h, ?_⟩
    simp [spOnCreate, List.lookup, spBaseTime, jsOrStr_falsy h]
  · intro s h hs
    exact jsOrStr_truthy h hs
  · intro h
    simp [spOnCreate, List.lookup, jsOrStr_falsy h]
  · intro g hab
    unfold processSourceParticipation
    rw [hv]
    simp only [Bool.not_true, Bool.false_eq_true, if_false]
    have hab1 : ((mergeNode g "SourceDomain" (sha256 (strOf p.source_domain))
        [("name", .str (strOf p.source_domain)), ("created_at", .str (spBaseTime t p))]
        []).nodes.any (nodeMatches "SourceParticipation"
          (sha256 (strOf p.crouton_id ++ ":" ++ strOf p.source_url)))) = false := by
      rw [any_nodes_mergeNode_other _ _ _ _ _ _ _ (by simp)]
      exact hab
    have hab2 : ((mergeNode (mergeNode g "SourceDomain" (sha256 (strOf p.source_domain))
        [("name", .str (strOf p.source_domain)), ("created_at", .str (spBaseTime t p))] [])
        "Crouton" (strOf p.crouton_id) [("created_at", .str (spBaseTime t p))]
        []).nodes.any (nodeMatches "SourceParticipation"
          (sha256 (strOf p.crouton_id ++ ":" ++ strOf p.source_url)))) = false := by
      rw [any_nodes_mergeNode_other _ _ _ _ _ _ _ (by simp)]
      exact hab1
    refine ⟨_, rfl, ?_⟩
    rw [nodes_mergeRel, nodes_mergeRel]
    rw [mergeNode_absent _ _ _ _ _ hab2]
    have hset : setProps [] (spOnCreate t p) = spOnCreate t p := by
      simp [spOnCreate, setProps, setProp]
    rw [hset]
    exact List.mem_append_right _ (by simp)

/-- A valid source_participation payload with every optional field absent. -/
def pMin : Payload :=
  { crouton_id := some "c-1", source_domain := some "example.com",
    source_url := some "https://example.com/p" }

/-- Witness for C10 at a concrete payload with all optional fields absent. -/
theorem claim_C10_sp_defaults_witness :
    List.lookup "ai_readable_source" (spOnCreate "T0" pMin) = some (.bool false) ∧
    List.lookup "markdown_discovered" (spOnCreate "T0" pMin) = some (.bool false) ∧
    List.lookup "discovery_method" (spOnCreate "T0" pMin) = some (.str "unknown") ∧
    spBaseTime "T0" pMin = "T0" ∧
    List.lookup "last_verified" (spOnCreate "T0" pMin) = some (.str (spBaseTime "T0" pMin)) :=
  ⟨(claim_C10_sp_defaults "T0" pMin (by decide)).1 (Or.inl rfl),
   (claim_C10_sp_defaults "T0" pMin (by decide)).2.1 (Or.inl rfl),
   (claim_C10_sp_defaults "T0" pMin (by decide)).2.2.1 (by decide),
   ((claim_C10_sp_defaults "T0" pMin (by decide)).2.2.2.1 (by decide)).1,
   (claim_C10_sp_defaults "T0" pMin (by decide)).2.2.2.2.2.1 (by decide)⟩

end GraphIndexer
